import Mathlib

/-!
Verification of the resume-generation workflow in `src/studio/ResumeStudio.py`
(repository `RyanStark223232/resume_mirror`).

The file shallowly embeds the workflow definition: the state schema
(`ResumeState`, lines 85-92 of the source), the node bodies
(`extract_qualifications`, `draft_resume`, `editor_api`, `editor_critique`,
`revise_resume`, `write_final_draft`), the routing functions
(`should_human_feedback_continue`, `should_continue`), the unused router
`send_to_editors`, and the graph wiring built at lines 198-220.

The LLM client is an external collaborator; it is abstracted as an `Oracle`
of pure functions from message lists to responses.  The graph execution
engine (langgraph) is likewise external to the repository; its execution,
interruption and checkpoint semantics are modelled from the specification
(sections 4.1 and 6) as a deterministic fuel-indexed interpreter over the
wiring that the source declares.

Python `TypedDict` keys may be absent, which is modelled with `Option`
fields; `dict.get(k, d)` becomes `Option.getD`, and a mandatory subscript
access `state[k]` on an absent key, which raises `KeyError` in Python, is
modelled by the node returning `none` (a node-execution failure).
-/

/-- Roles of chat messages (`SystemMessage` / `HumanMessage` in the source). -/
inductive Role where
  | system
  | human
deriving DecidableEq, Repr

/-- One role-tagged message sent to the LLM. -/
structure Msg where
  role : Role
  content : String
deriving DecidableEq, Repr

/-- Structured output schema `Qualifications` (source lines 24-30):
required and preferred qualification lists. -/
structure Qualifications where
  required : List String
  preferred : List String
deriving DecidableEq, Repr

/-- Abstraction of the LLM Gateway: `text` models `llm.invoke` (free text
response) and `quals` models `llm.with_structured_output(Qualifications).invoke`
(schema-validated response).  Both are pure oracle functions of the request. -/
structure Oracle where
  text : List Msg → String
  quals : List Msg → Qualifications

/-- Outer graph state `ResumeState` (source lines 85-92).  Every key of the
TypedDict may be absent in a concrete state dict, hence `Option`; the
accumulator field `editor_feedback` is annotated with `operator.add` in the
source and its channel defaults to the empty list, so it is a plain list. -/
structure ResumeState where
  job_post : Option String
  human_feedback : Option String
  resume_input : Option String
  qualifications : Option Qualifications
  resume_draft : Option String
  editor_feedback : List String
  iteration : Option Nat
deriving DecidableEq, Repr

/-- Partial state update returned by a node: `none` means the key is absent
from the returned dict.  `editor_feedback` carries the list value the node
returned for that key, to be combined by the channel reducer. -/
structure ResumeUpdate where
  job_post : Option String := none
  human_feedback : Option String := none
  resume_input : Option String := none
  qualifications : Option Qualifications := none
  resume_draft : Option String := none
  editor_feedback : Option (List String) := none
  iteration : Option Nat := none
deriving DecidableEq, Repr

/-- Overwrite merge policy for a scalar (non-accumulator) field: a key
present in the update replaces the stored value, an absent key leaves it. -/
def mergeScalar {α : Type} (upd old : Option α) : Option α :=
  match upd with
  | none => old
  | some v => some v

/-- Merge a node's partial update into the state.  Scalar fields overwrite;
`editor_feedback` is an accumulator reduced with `operator.add`
(source line 91), so a returned list is appended to the stored list —
in particular a returned empty list leaves the accumulator unchanged. -/
def applyUpdate (u : ResumeUpdate) (s : ResumeState) : ResumeState :=
  { job_post := mergeScalar u.job_post s.job_post
    human_feedback := mergeScalar u.human_feedback s.human_feedback
    resume_input := mergeScalar u.resume_input s.resume_input
    qualifications := mergeScalar u.qualifications s.qualifications
    resume_draft := mergeScalar u.resume_draft s.resume_draft
    editor_feedback :=
      match u.editor_feedback with
      | none => s.editor_feedback
      | some l => s.editor_feedback ++ l
    iteration := mergeScalar u.iteration s.iteration }

/-- Renders a Python list of strings inside an f-string, as
`{qualifications.required}` does in the source prompt (quoting of the
individual items is abbreviated; no claim depends on it). -/
def pyList (l : List String) : String :=
  "[" ++ String.intercalate ", " l ++ "]"

/-- Prompt template `qualification_instructions` (source lines 38-51) with
the two placeholders `{job_post}` and `{human_feedback}` substituted, as
`qualification_instructions.format(...)` does at lines 60-63. -/
def qualification_instructions (job_post human_feedback : String) : String :=
  "You are tasked with analyzing a job posting and coming up with a outline for writing tailored resume.\n\n1. Carefully read the following job post:\n"
  ++ job_post
  ++ "\n\n2. Extract qualifications into two categories, focus on keywords of technology required, such as Power BI and AWS :\n   - Required (must-have skills/credentials/experience)\n   - Preferred (nice-to-have or optional)\n\n3. Update qualification with similar item based on human feedback of the user:\n"
  ++ human_feedback
  ++ "\n\n3. Return the structured lists.\n"

/-- Message list of the single structured LLM request issued by
`extract_qualifications` (source lines 65-68): the formatted system message
followed by a fixed human message. -/
def extractRequest (job_post human_feedback : String) : List Msg :=
  [⟨Role.system, qualification_instructions job_post human_feedback⟩,
   ⟨Role.human, "Extract the qualifications now."⟩]

/-- Sequence of LLM requests issued by one execution of
`extract_qualifications` on a state whose `job_post` is present: the body
(source lines 54-70) contains exactly one `structured_llm.invoke` call. -/
def extractCalls (s : ResumeState) (jp : String) : List (List Msg) :=
  [extractRequest jp (s.human_feedback.getD "")]

/-- Node `extract_qualifications` (source lines 54-70): reads `job_post`
(mandatory subscript) and `human_feedback` (with default `""`), issues one
structured LLM call, and returns an update containing only the
`qualifications` key.  `none` models the `KeyError` on an absent `job_post`. -/
def extract_qualifications (o : Oracle) (s : ResumeState) : Option ResumeUpdate :=
  match s.job_post with
  | none => none
  | some jp =>
      some { qualifications :=
               some (o.quals (extractRequest jp (s.human_feedback.getD ""))) }

/-- System prompt built by `draft_resume` (source lines 101-123). -/
def draftPrompt (job_post : String) (q : Qualifications)
    (resume_input prior_draft feedback : String) : String :=
  "You are a career coach.\n    Tailor the candidate resume to this job post:\n\n    Job Post:\n    "
  ++ job_post
  ++ "\n\n    Required Qualifications:\n    " ++ pyList q.required
  ++ "\n\n    Preferred Qualifications:\n    " ++ pyList q.preferred
  ++ "\n\n    Existing Resume:\n    " ++ resume_input
  ++ "\n\n    Previous Draft (if any):\n    " ++ prior_draft
  ++ "\n\n    Feedback from reviewers:\n    " ++ feedback
  ++ "\n\n    Draft a revised resume highlighting relevant achievements, quantifying impact where possible.\n    "

/-- Node `draft_resume` (source lines 95-125): reads `job_post`,
`qualifications` and `resume_input` (mandatory subscripts), the prior draft
and the joined accumulated feedback (with defaults), issues one LLM call and
returns the new draft together with the key `editor_feedback = []` (the
source comment says clear feedback after applying). -/
def draft_resume (o : Oracle) (s : ResumeState) : Option ResumeUpdate :=
  match s.job_post, s.qualifications, s.resume_input with
  | some jp, some q, some ri =>
      some { resume_draft :=
               some (o.text [⟨Role.system,
                 draftPrompt jp q ri (s.resume_draft.getD "")
                   (String.intercalate "\n" (s.editor_feedback))⟩])
             editor_feedback := some [] }
  | _, _, _ => none

/-- Node `editor_api` (source lines 128-129): a stub appending one fixed
placeholder feedback string to the accumulator. -/
def editor_api (_ : ResumeState) : Option ResumeUpdate :=
  some { editor_feedback := some ["[API editor returned no feedback]"] }

/-- System prompt of `editor_critique` (source lines 134-140). -/
def critiquePrompt : String :=
  "You are a strict resume reviewer.\n    Critique the resume draft for:\n    - Grammar issues\n    - Lack of quantified metrics\n    - Weak descriptions of achievements\n    Provide actionable suggestions.\n    "

/-- Node `editor_critique` (source lines 132-142): reads `resume_draft`
(mandatory subscript), issues one LLM call with the critique instructions
and the draft, and appends the response to the accumulator. -/
def editor_critique (o : Oracle) (s : ResumeState) : Option ResumeUpdate :=
  match s.resume_draft with
  | none => none
  | some draft =>
      some { editor_feedback :=
               some [o.text [⟨Role.system, critiquePrompt⟩, ⟨Role.human, draft⟩]] }

/-- Routing function `should_human_feedback_continue` (source lines 145-149):
routes to the draft step when `human_feedback` is absent (`state.get`
returns `None`) or equals the sentinel `"ok"`, otherwise back to extraction. -/
def should_human_feedback_continue (s : ResumeState) : String :=
  match s.human_feedback with
  | none => "draft_resume"
  | some f => if f = "ok" then "draft_resume" else "extract_qualifications"

/-- Payload packet of a langgraph `Send` object: a target node name and the
dict passed to that branch as its isolated state. -/
structure SendPacket where
  node : String
  payload : ResumeUpdate
deriving DecidableEq, Repr

/-- Router `send_to_editors` (source lines 152-157): would dispatch the two
editors with an isolated payload holding only the current `resume_draft`.
It is defined in the source but never attached to the graph. -/
def send_to_editors (s : ResumeState) : Option (List SendPacket) :=
  match s.resume_draft with
  | none => none
  | some draft =>
      some [⟨"editor_api", { resume_draft := some draft }⟩,
            ⟨"editor_critique", { resume_draft := some draft }⟩]

/-- Node `revise_resume` (source lines 160-164): returns an update holding
only the `iteration` key, set to `state.get("iteration", 0) + 1`. -/
def revise_resume (s : ResumeState) : ResumeUpdate :=
  { iteration := some (s.iteration.getD 0 + 1) }

/-- Routing function `should_continue` (source lines 167-170): routes to
finalization when `state.get("iteration", 0) >= 2`, else back to drafting. -/
def should_continue (s : ResumeState) : String :=
  if 2 ≤ s.iteration.getD 0 then "write_final_draft" else "draft_resume"

/-- System prompt of `write_final_draft` (source lines 181-194). -/
def finalPrompt (draft feedback : String) : String :=
  "You are a professional career coach.\n    Produce a final, polished resume based on the following:\n\n    Last Draft:\n    "
  ++ draft
  ++ "\n\n    Feedback from editors (if any):\n    " ++ feedback
  ++ "\n\n    Ensure:\n    - Clear grammar and style\n    - Achievements quantified\n    - Strong focus on required and preferred qualifications\n    "

/-- Node `write_final_draft` (source lines 173-196): reads the draft and the
joined feedback with defaults (no mandatory access), issues one LLM call and
returns the result as the final `resume_draft`. -/
def write_final_draft (o : Oracle) (s : ResumeState) : ResumeUpdate :=
  { resume_draft :=
      some (o.text [⟨Role.system,
        finalPrompt (s.resume_draft.getD "")
          (String.intercalate "\n" (s.editor_feedback))⟩]) }

/-- Identifiers for the routing functions attached by
`add_conditional_edges`, used to record the graph wiring as data. -/
inductive RouterId where
  | should_human_feedback_continue
  | should_continue
  | send_to_editors
deriving DecidableEq, Repr

/-- One declared edge of a graph: static (`add_edge`) or conditional
(`add_conditional_edges`, with the declared successor-name list). -/
inductive GraphEdge where
  | static (src dst : String)
  | conditional (src : String) (router : RouterId) (successors : List String)
deriving DecidableEq, Repr

/-- Edges of the main graph exactly as declared at source lines 209-217
(`START` and `END` are the langgraph markers). -/
def mainGraphEdges : List GraphEdge :=
  [GraphEdge.static "START" "extract_qualifications",
   GraphEdge.static "extract_qualifications" "human_feedback",
   GraphEdge.conditional "human_feedback" RouterId.should_human_feedback_continue
     ["extract_qualifications", "draft_resume"],
   GraphEdge.static "draft_resume" "editor_api",
   GraphEdge.static "draft_resume" "editor_critique",
   GraphEdge.static "editor_api" "revise_resume",
   GraphEdge.static "editor_critique" "revise_resume",
   GraphEdge.conditional "revise_resume" RouterId.should_continue
     ["draft_resume", "write_final_draft"],
   GraphEdge.static "write_final_draft" "END"]

/-- Tests whether an edge dispatches from `draft_resume` through the
`send_to_editors` router. -/
def isSendToEditorsEdge : GraphEdge → Bool
  | GraphEdge.conditional src r _ =>
      src = "draft_resume" && r = RouterId.send_to_editors
  | GraphEdge.static _ _ => false

/-- Control positions of the interpreter for the main graph.  The two editor
branches (static edges from `draft_resume`, joined at `revise_resume`) run
in one parallel superstep, represented by the single position `editors`. -/
inductive Node where
  | extract_qualifications
  | human_feedback
  | draft_resume
  | editors
  | revise_resume
  | write_final_draft
  | terminal
deriving DecidableEq, Repr

/-- Labels of executed node bodies, recorded in execution traces. -/
inductive NodeTag where
  | extract_qualifications
  | human_feedback
  | draft_resume
  | editor_api
  | editor_critique
  | revise_resume
  | write_final_draft
deriving DecidableEq, Repr

/-- Successor of one interpreter step, or an engine-level error.
`routeErr` models the spec's `RoutingError` (a conditional routing function
returned a name outside the declared successor set); `nodeErr` models
`NodeExecutionError` (here: `KeyError` on a mandatory state access). -/
inductive StepFlow where
  | next (n : Node)
  | nodeErr
  | routeErr
deriving DecidableEq, Repr

/-- Dispatch of the conditional edge declared at source line 211: maps the
name returned by `should_human_feedback_continue` to the next position. -/
def routeAfterFeedback (name : String) : StepFlow :=
  if name = "extract_qualifications" then StepFlow.next Node.extract_qualifications
  else if name = "draft_resume" then StepFlow.next Node.draft_resume
  else StepFlow.routeErr

/-- Dispatch of the conditional edge declared at source line 216: maps the
name returned by `should_continue` to the next position. -/
def routeAfterRevise (name : String) : StepFlow :=
  if name = "draft_resume" then StepFlow.next Node.draft_resume
  else if name = "write_final_draft" then StepFlow.next Node.write_final_draft
  else StepFlow.routeErr

/-- Modelled from the spec: one superstep of the external graph engine
(langgraph, not part of src) executing the wiring of `mainGraphEdges`, per
section 4.1 of the specification.  A node's update is merged into global
state, then the outgoing edge (static, or conditional evaluated on the
merged state) selects the next position.  In the `editors` superstep both
editor bodies read the same pre-step state — the source reaches them through
static edges, so each receives the full global state — and their appends to
the accumulator are merged sequentially (their relative order is
unspecified; no claim below depends on it).  The `human_feedback` node body
is `pass` (source lines 73-75), contributing no update. -/
def execNode (o : Oracle) (n : Node) (s : ResumeState) :
    List NodeTag × ResumeState × StepFlow :=
  match n with
  | Node.extract_qualifications =>
      match extract_qualifications o s with
      | none => ([NodeTag.extract_qualifications], s, StepFlow.nodeErr)
      | some u => ([NodeTag.extract_qualifications], applyUpdate u s,
                   StepFlow.next Node.human_feedback)
  | Node.human_feedback =>
      ([NodeTag.human_feedback], s,
       routeAfterFeedback (should_human_feedback_continue s))
  | Node.draft_resume =>
      match draft_resume o s with
      | none => ([NodeTag.draft_resume], s, StepFlow.nodeErr)
      | some u => ([NodeTag.draft_resume], applyUpdate u s,
                   StepFlow.next Node.editors)
  | Node.editors =>
      match editor_api s, editor_critique o s with
      | some u1, some u2 =>
          ([NodeTag.editor_api, NodeTag.editor_critique],
           applyUpdate u2 (applyUpdate u1 s), StepFlow.next Node.revise_resume)
      | _, _ => ([NodeTag.editor_api, NodeTag.editor_critique], s, StepFlow.nodeErr)
  | Node.revise_resume =>
      ([NodeTag.revise_resume], applyUpdate (revise_resume s) s,
       routeAfterRevise (should_continue (applyUpdate (revise_resume s) s)))
  | Node.write_final_draft =>
      ([NodeTag.write_final_draft], applyUpdate (write_final_draft o s) s,
       StepFlow.next Node.terminal)
  | Node.terminal => ([], s, StepFlow.next Node.terminal)

/-- Outcome of a fuel-bounded run. -/
inductive Outcome where
  | done
  | outOfFuel (next : Node)
  | nodeError
  | routingError
deriving DecidableEq, Repr

/-- Modelled from the spec: fuel-bounded execution of the main graph by the
external engine, returning the trace of executed node bodies, the final
state, and the outcome.  Interrupts are handled separately in `runI`. -/
def runNodes (o : Oracle) : Nat → Node → ResumeState →
    List NodeTag × ResumeState × Outcome
  | 0, n, s => ([], s, Outcome.outOfFuel n)
  | _ + 1, Node.terminal, s => ([], s, Outcome.done)
  | fuel + 1, n, s =>
      match execNode o n s with
      | (tags, s2, StepFlow.next m) =>
          match runNodes o fuel m s2 with
          | (ts, sf, out) => (tags ++ ts, sf, out)
      | (tags, s2, StepFlow.nodeErr) => (tags, s2, Outcome.nodeError)
      | (tags, s2, StepFlow.routeErr) => (tags, s2, Outcome.routingError)

/-- Interruption points declared at compile time (source line 220:
`builder.compile(interrupt_before=["human_feedback"])`). -/
def interruptBefore : List Node := [Node.human_feedback]

/-- Result of invoking or resuming the compiled graph: either a paused
handle carrying the persisted checkpoint (the snapshot of the state and the
identity of the next node, per section 3 of the specification) or a
finished / failed run. -/
inductive RunResult where
  | paused (checkpoint : ResumeState) (next : Node)
  | finished (s : ResumeState)
  | outOfFuel (next : Node) (s : ResumeState)
  | nodeError (s : ResumeState)
  | routingError (s : ResumeState)
deriving DecidableEq, Repr

/-- Modelled from the spec: fuel-bounded execution with interruption
support.  Before executing a node declared in `interrupt_before`, the engine
persists a checkpoint and suspends, returning a paused handle; the flag
`fresh` is false exactly when execution was just resumed at this node, in
which case the interruption is not re-taken. -/
def runI (o : Oracle) : Nat → Bool → Node → ResumeState → RunResult
  | 0, _, n, s => RunResult.outOfFuel n s
  | _ + 1, _, Node.terminal, s => RunResult.finished s
  | fuel + 1, fresh, n, s =>
      if fresh ∧ n ∈ interruptBefore then RunResult.paused s n
      else
        match execNode o n s with
        | (_, s2, StepFlow.next m) => runI o fuel true m s2
        | (_, s2, StepFlow.nodeErr) => RunResult.nodeError s2
        | (_, s2, StepFlow.routeErr) => RunResult.routingError s2

/-- Modelled from the spec: `invoke` runs the compiled graph from the entry
edge (`START → extract_qualifications`, source line 209) on the
caller-supplied initial state. -/
def invoke (o : Oracle) (fuel : Nat) (init : ResumeState) : RunResult :=
  runI o fuel true Node.extract_qualifications init

/-- Modelled from the spec: `resume` merges the caller's patch into the
checkpointed state using the field merge policies and continues execution
from the interrupted node; on a non-paused handle it is the identity. -/
def resume (o : Oracle) (fuel : Nat) (h : RunResult) (patch : ResumeUpdate) :
    RunResult :=
  match h with
  | RunResult.paused cp n => runI o fuel false n (applyUpdate patch cp)
  | r => r

/-- Totality of the feedback router: it returns one of the two successor
names declared at source line 211. -/
theorem shfc_total (s : ResumeState) :
    should_human_feedback_continue s = "draft_resume" ∨
    should_human_feedback_continue s = "extract_qualifications" := by
  unfold should_human_feedback_continue
  cases s.human_feedback with
  | none => left; rfl
  | some f => by_cases h : f = "ok" <;> simp [h]

/-- Totality of the iteration router: it returns one of the two successor
names declared at source line 216. -/
theorem sc_total (s : ResumeState) :
    should_continue s = "write_final_draft" ∨ should_continue s = "draft_resume" := by
  unfold should_continue
  by_cases h : 2 ≤ s.iteration.getD 0 <;> simp [h]

/-- No superstep produces the routing-error flow: every dispatch of a
conditional edge receives a declared successor name. -/
theorem execNode_no_routeErr (o : Oracle) (n : Node) (s : ResumeState) :
    (execNode o n s).2.2 ≠ StepFlow.routeErr := by
  cases n with
  | extract_qualifications =>
      cases h : extract_qualifications o s <;> simp [execNode, h]
  | human_feedback =>
      rcases shfc_total s with h | h <;> simp [execNode, h, routeAfterFeedback]
  | draft_resume =>
      cases h : draft_resume o s <;> simp [execNode, h]
  | editors =>
      cases h1 : editor_api s <;> cases h2 : editor_critique o s <;>
        simp [execNode, h1, h2]
  | revise_resume =>
      rcases sc_total (applyUpdate (revise_resume s) s) with h | h <;>
        simp [execNode, h, routeAfterRevise]
  | write_final_draft => simp [execNode]
  | terminal => simp [execNode]

/-- Unfolding equation of `runNodes` at a non-terminal position. -/
theorem runNodes_succ (o : Oracle) (k : Nat) (n : Node) (s : ResumeState)
    (hn : n ≠ Node.terminal) :
    runNodes o (k + 1) n s =
      match execNode o n s with
      | (tags, s2, StepFlow.next m) =>
          match runNodes o k m s2 with
          | (ts, sf, out) => (tags ++ ts, sf, out)
      | (tags, s2, StepFlow.nodeErr) => (tags, s2, Outcome.nodeError)
      | (tags, s2, StepFlow.routeErr) => (tags, s2, Outcome.routingError) := by
  cases n <;> first | exact absurd rfl hn | rfl

/-- Unfolding equation of `runI` at a non-terminal position. -/
theorem runI_succ (o : Oracle) (k : Nat) (fresh : Bool) (n : Node)
    (s : ResumeState) (hn : n ≠ Node.terminal) :
    runI o (k + 1) fresh n s =
      if fresh ∧ n ∈ interruptBefore then RunResult.paused s n
      else
        match execNode o n s with
        | (_, s2, StepFlow.next m) => runI o k true m s2
        | (_, s2, StepFlow.nodeErr) => RunResult.nodeError s2
        | (_, s2, StepFlow.routeErr) => RunResult.routingError s2 := by
  cases n <;> first | exact absurd rfl hn | rfl

/-- The run-time routing-error outcome is unreachable in every run, whatever
the fuel, start position and state. -/
theorem runNodes_no_routingError (o : Oracle) :
    ∀ fuel n s, (runNodes o fuel n s).2.2 ≠ Outcome.routingError := by
  intro fuel
  induction fuel with
  | zero => intro n s; simp [runNodes]
  | succ k ih =>
    intro n s
    by_cases hn : n = Node.terminal
    · subst hn; simp [runNodes]
    · rw [runNodes_succ o k n s hn]
      rcases hf : execNode o n s with ⟨tags, s2, flow⟩
      have hflow := execNode_no_routeErr o n s
      rw [hf] at hflow
      cases flow with
      | next m =>
          have h2 := ih m s2
          rcases hr : runNodes o k m s2 with ⟨ts, sf, out⟩
          rw [hr] at h2
          simp [hr]
          exact h2
      | nodeErr => simp
      | routeErr => exact absurd rfl hflow

/-- C5: for every state, `should_continue` returns the finalization
successor `"write_final_draft"` if and only if the iteration counter
(read with default 0, as `state.get("iteration", 0)` does) is at least 2,
and otherwise returns `"draft_resume"`. -/
theorem c5_should_continue_iff (s : ResumeState) :
    (should_continue s = "write_final_draft" ↔ 2 ≤ s.iteration.getD 0) ∧
    (should_continue s = "draft_resume" ↔ s.iteration.getD 0 < 2) := by
  unfold should_continue
  by_cases h : 2 ≤ s.iteration.getD 0 <;> simp [h]
  all_goals omega

/-- Witness for C5, at a state with iteration 2 the router finalizes. -/
theorem c5_should_continue_iff_witness :
    should_continue ⟨none, none, none, none, none, [], some 2⟩ =
      "write_final_draft" :=
  (c5_should_continue_iff ⟨none, none, none, none, none, [], some 2⟩).1.mpr
    (by decide)

/-- C7: the update returned by `revise_resume` holds only the `iteration`
key, set to one more than the current value, and merging it changes no
other field of the workflow state. -/
theorem c7_revise_increment_frame (s : ResumeState) (n : Nat)
    (h : s.iteration = some n) :
    revise_resume s = { iteration := some (n + 1) } ∧
    applyUpdate (revise_resume s) s = { s with iteration := some (n + 1) } := by
  simp [revise_resume, applyUpdate, mergeScalar, h]

/-- Witness for C7 at a concrete state with iteration 1. -/
theorem c7_revise_increment_frame_witness :
    applyUpdate (revise_resume ⟨some "J", none, some "R", none, none, [], some 1⟩)
        ⟨some "J", none, some "R", none, none, [], some 1⟩ =
      ⟨some "J", none, some "R", none, none, [], some 2⟩ :=
  (c7_revise_increment_frame ⟨some "J", none, some "R", none, none, [], some 1⟩ 1
    rfl).2

/-- C9: both conditional routing functions are total and return members of
the successor sets declared at source lines 211 and 216, so the run-time
routing-error branch is unreachable in every execution. -/
theorem c9_routing_total_no_routing_error (o : Oracle) :
    (∀ s : ResumeState,
        should_human_feedback_continue s = "draft_resume" ∨
        should_human_feedback_continue s = "extract_qualifications") ∧
    (∀ s : ResumeState,
        should_continue s = "write_final_draft" ∨
        should_continue s = "draft_resume") ∧
    (∀ s : ResumeState,
        should_human_feedback_continue s ∈ ["extract_qualifications", "draft_resume"] ∧
        should_continue s ∈ ["draft_resume", "write_final_draft"]) ∧
    (∀ fuel n s, (runNodes o fuel n s).2.2 ≠ Outcome.routingError) := by
  refine ⟨shfc_total, sc_total, ?_, runNodes_no_routingError o⟩
  intro s
  constructor
  · rcases shfc_total s with h | h <;> simp [h]
  · rcases sc_total s with h | h <;> simp [h]

/-- Witness for C9, instantiating the routing totality at concrete states. -/
theorem c9_routing_total_no_routing_error_witness :
    should_human_feedback_continue ⟨none, some "redo", none, none, none, [], none⟩ ∈
      ["extract_qualifications", "draft_resume"] ∧
    should_continue ⟨none, some "redo", none, none, none, [], none⟩ ∈
      ["draft_resume", "write_final_draft"] :=
  (c9_routing_total_no_routing_error ⟨fun _ => "", fun _ => ⟨[], []⟩⟩).2.2.1
    ⟨none, some "redo", none, none, none, [], none⟩

/-- C10: a state whose `iteration` key is absent is treated as iteration 0:
`revise_resume` returns iteration 1, `should_continue` routes back to
drafting, and both functions agree with their value on the same state with
iteration 0. -/
theorem c10_absent_iteration_default (s : ResumeState) (h : s.iteration = none) :
    revise_resume s = { iteration := some 1 } ∧
    should_continue s = "draft_resume" ∧
    revise_resume s = revise_resume { s with iteration := some 0 } ∧
    should_continue s = should_continue { s with iteration := some 0 } := by
  simp [revise_resume, should_continue, h]

/-- Witness for C10 at a concrete state without `iteration`. -/
theorem c10_absent_iteration_default_witness :
    should_continue ⟨some "J", none, some "R", none, none, [], none⟩ =
      "draft_resume" :=
  (c10_absent_iteration_default ⟨some "J", none, some "R", none, none, [], none⟩
    rfl).2.1

/-- C8: `extract_qualifications` issues exactly one LLM call; the prompt of
that call embeds both the job post text and the human feedback text; the
returned update holds only the `qualifications` key, whose merge replaces
any prior value wholesale; and the node's result is independent of the
prior `qualifications`, so a re-run with updated feedback re-derives them
from scratch. -/
theorem c8_extract_one_call_replace (o : Oracle) (s : ResumeState)
    (jp : String) (h : s.job_post = some jp) :
    (extractCalls s jp).length = 1 ∧
    extract_qualifications o s =
      some { qualifications :=
               some (o.quals (extractRequest jp (s.human_feedback.getD ""))) } ∧
    (∃ a b c : String,
        qualification_instructions jp (s.human_feedback.getD "") =
          a ++ jp ++ b ++ (s.human_feedback.getD "") ++ c) ∧
    (∀ u : ResumeUpdate, ∀ q0 : Option Qualifications,
        u.qualifications =
            some (o.quals (extractRequest jp (s.human_feedback.getD ""))) →
        (applyUpdate u { s with qualifications := q0 }).qualifications =
          some (o.quals (extractRequest jp (s.human_feedback.getD "")))) ∧
    (∀ q0 : Option Qualifications,
        extract_qualifications o { s with qualifications := q0 } =
          extract_qualifications o s) := by
  refine ⟨rfl, ?_, ⟨_, _, _, rfl⟩, ?_, ?_⟩
  · simp [extract_qualifications, h]
  · intro u q0 hu
    simp [applyUpdate, mergeScalar, hu]
  · intro q0
    simp [extract_qualifications]

/-- Witness for C8 at a concrete state. -/
theorem c8_extract_one_call_replace_witness :
    (extractCalls ⟨some "J", some "fb", some "R", none, none, [], none⟩ "J").length
      = 1 :=
  (c8_extract_one_call_replace ⟨fun _ => "", fun _ => ⟨[], []⟩⟩
    ⟨some "J", some "fb", some "R", none, none, [], none⟩ "J" rfl).1

/-- C3 counterexample: in the graph that the source builds there is no
conditional (fan-out) edge from `draft_resume` through `send_to_editors`;
instead the two editors are reached by the static edges declared at source
lines 212-213, so the editors are not dispatched via the router. -/
theorem c3_no_send_to_editors_edge :
    (¬ ∃ e ∈ mainGraphEdges, isSendToEditorsEdge e = true) ∧
    GraphEdge.static "draft_resume" "editor_api" ∈ mainGraphEdges ∧
    GraphEdge.static "draft_resume" "editor_critique" ∈ mainGraphEdges := by
  decide

/-- C3 (amended): the two editors are invoked in parallel from
`draft_resume` through two static edges and each editor body reads the full
global state; `send_to_editors`, which would package only the current
`resume_draft` into isolated branch payloads, is defined in the source but
never attached to the graph. -/
theorem c3_static_parallel_dispatch (o : Oracle) (s : ResumeState)
    (d : String) (h : s.resume_draft = some d) :
    GraphEdge.static "draft_resume" "editor_api" ∈ mainGraphEdges ∧
    GraphEdge.static "draft_resume" "editor_critique" ∈ mainGraphEdges ∧
    (∀ e ∈ mainGraphEdges, isSendToEditorsEdge e = false) ∧
    send_to_editors s =
      some [⟨"editor_api", { resume_draft := some d }⟩,
            ⟨"editor_critique", { resume_draft := some d }⟩] ∧
    (execNode o Node.editors s).2.1.editor_feedback =
      s.editor_feedback ++
        ["[API editor returned no feedback]",
         o.text [⟨Role.system, critiquePrompt⟩, ⟨Role.human, d⟩]] := by
  refine ⟨by decide, by decide, by decide, ?_, ?_⟩
  · simp [send_to_editors, h]
  · simp [execNode, editor_api, editor_critique, h, applyUpdate, mergeScalar]

/-- Witness for C3's amended statement at a concrete draft. -/
theorem c3_static_parallel_dispatch_witness :
    send_to_editors ⟨some "J", none, some "R", none, some "D", [], none⟩ =
      some [⟨"editor_api", { resume_draft := some "D" }⟩,
            ⟨"editor_critique", { resume_draft := some "D" }⟩] :=
  (c3_static_parallel_dispatch ⟨fun _ => "", fun _ => ⟨[], []⟩⟩
    ⟨some "J", none, some "R", none, some "D", [], none⟩ "D" rfl).2.2.2.1

/-- C4: the routing function after the human feedback gate returns the
drafting successor if and only if `human_feedback` is absent or equals the
sentinel "ok", and otherwise returns the extraction successor; and from
every caller-supplied initial state (job post and resume input present)
whose `human_feedback` is absent or "ok", the run reaches `draft_resume`
executing `extract_qualifications` exactly once on the way. -/
theorem c4_feedback_routing_and_reach (o : Oracle) (jp ri : String)
    (hf : Option String) (q : Option Qualifications) (rd : Option String)
    (fb : List String) (it : Option Nat)
    (h : hf = none ∨ hf = some "ok") :
    (∀ s : ResumeState,
        (should_human_feedback_continue s = "draft_resume" ↔
          (s.human_feedback = none ∨ s.human_feedback = some "ok")) ∧
        (should_human_feedback_continue s = "extract_qualifications" ↔
          ¬(s.human_feedback = none ∨ s.human_feedback = some "ok"))) ∧
    (runNodes o 3 Node.extract_qualifications
        ⟨some jp, hf, some ri, q, rd, fb, it⟩).1 =
      [NodeTag.extract_qualifications, NodeTag.human_feedback,
       NodeTag.draft_resume] ∧
    (runNodes o 3 Node.extract_qualifications
        ⟨some jp, hf, some ri, q, rd, fb, it⟩).2.2 =
      Outcome.outOfFuel Node.editors := by
  have hroute : ∀ s : ResumeState,
      (should_human_feedback_continue s = "draft_resume" ↔
        (s.human_feedback = none ∨ s.human_feedback = some "ok")) ∧
      (should_human_feedback_continue s = "extract_qualifications" ↔
        ¬(s.human_feedback = none ∨ s.human_feedback = some "ok")) := by
    intro s
    unfold should_human_feedback_continue
    cases s.human_feedback with
    | none => simp
    | some f => by_cases hok : f = "ok" <;> simp [hok]
  refine ⟨hroute, ?_, ?_⟩ <;>
    rcases h with h | h <;> subst h <;>
      simp [runNodes, execNode, extract_qualifications, draft_resume,
            should_human_feedback_continue, routeAfterFeedback, applyUpdate,
            mergeScalar]

/-- Witness for C4 with feedback "ok" at a concrete initial state. -/
theorem c4_feedback_routing_and_reach_witness :
    (runNodes ⟨fun _ => "T", fun _ => ⟨["r"], ["p"]⟩⟩ 3
        Node.extract_qualifications
        ⟨some "J", some "ok", some "R", none, none, [], none⟩).1 =
      [NodeTag.extract_qualifications, NodeTag.human_feedback,
       NodeTag.draft_resume] :=
  (c4_feedback_routing_and_reach ⟨fun _ => "T", fun _ => ⟨["r"], ["p"]⟩⟩
    "J" "R" (some "ok") none none [] none (Or.inr rfl)).2.1

/-- C6: in a complete run from a caller-supplied initial state (iteration
absent or 0, feedback gate passing), `write_final_draft` executes exactly
once, at the point where the iteration counter first reaches 2: the run's
trace ends with it, the state entering it has iteration 2, the trace before
it contains no `write_final_draft` while the only earlier revision pass set
iteration 1, and `write_final_draft` flows unconditionally to the terminal
marker. -/
theorem c6_write_final_draft_once (o : Oracle) (jp ri : String)
    (hf : Option String) (q : Option Qualifications) (rd : Option String)
    (fb : List String) (it : Option Nat)
    (h1 : hf = none ∨ hf = some "ok") (h2 : it = none ∨ it = some 0) :
    (runNodes o 20 Node.extract_qualifications
        ⟨some jp, hf, some ri, q, rd, fb, it⟩).1 =
      [NodeTag.extract_qualifications, NodeTag.human_feedback,
       NodeTag.draft_resume, NodeTag.editor_api, NodeTag.editor_critique,
       NodeTag.revise_resume, NodeTag.draft_resume, NodeTag.editor_api,
       NodeTag.editor_critique, NodeTag.revise_resume,
       NodeTag.write_final_draft] ∧
    (runNodes o 20 Node.extract_qualifications
        ⟨some jp, hf, some ri, q, rd, fb, it⟩).1.count
      NodeTag.write_final_draft = 1 ∧
    (runNodes o 20 Node.extract_qualifications
        ⟨some jp, hf, some ri, q, rd, fb, it⟩).2.2 = Outcome.done ∧
    (runNodes o 20 Node.extract_qualifications
        ⟨some jp, hf, some ri, q, rd, fb, it⟩).2.1.iteration = some 2 ∧
    (runNodes o 8 Node.extract_qualifications
        ⟨some jp, hf, some ri, q, rd, fb, it⟩).2.2 =
      Outcome.outOfFuel Node.write_final_draft ∧
    (runNodes o 8 Node.extract_qualifications
        ⟨some jp, hf, some ri, q, rd, fb, it⟩).2.1.iteration = some 2 ∧
    (runNodes o 8 Node.extract_qualifications
        ⟨some jp, hf, some ri, q, rd, fb, it⟩).1.count
      NodeTag.write_final_draft = 0 ∧
    (runNodes o 5 Node.extract_qualifications
        ⟨some jp, hf, some ri, q, rd, fb, it⟩).2.1.iteration = some 1 ∧
    (∀ s : ResumeState,
        (execNode o Node.write_final_draft s).2.2 =
          StepFlow.next Node.terminal) := by
  rcases h1 with h1 | h1 <;> rcases h2 with h2 | h2 <;> subst h1 <;> subst h2 <;>
    simp [runNodes, execNode, extract_qualifications, draft_resume, editor_api,
          editor_critique, revise_resume, write_final_draft,
          should_human_feedback_continue, should_continue, routeAfterFeedback,
          routeAfterRevise, applyUpdate, mergeScalar, List.count_cons]

/-- Witness for C6 at a concrete initial state with absent iteration. -/
theorem c6_write_final_draft_once_witness :
    (runNodes ⟨fun _ => "T", fun _ => ⟨["r"], ["p"]⟩⟩ 20
        Node.extract_qualifications
        ⟨some "J", some "ok", some "R", none, none, [], none⟩).2.1.iteration =
      some 2 :=
  (c6_write_final_draft_once ⟨fun _ => "T", fun _ => ⟨["r"], ["p"]⟩⟩
    "J" "R" (some "ok") none none [] none (Or.inr rfl) (Or.inl rfl)).2.2.2.1

/-- C1: evaluation at the failing input.  Because `editor_feedback` is
reduced with `operator.add` (source line 91), the update
`editor_feedback = []` returned by `draft_resume` (source line 125, whose
comment says the feedback is cleared) appends nothing, so the accumulator
is NOT cleared: on the run from the concrete initial state below,
immediately after the second `draft_resume` merge the accumulator still
holds the two round-one entries (the claim says 0), and immediately after
the second fan-in join it holds four entries (the claim says 2). -/
theorem c1_feedback_accumulator_eval :
    (runNodes ⟨fun _ => "T", fun _ => ⟨["r"], ["p"]⟩⟩ 6
        Node.extract_qualifications
        ⟨some "J", some "ok", some "R", none, none, [], none⟩).1 =
      [NodeTag.extract_qualifications, NodeTag.human_feedback,
       NodeTag.draft_resume, NodeTag.editor_api, NodeTag.editor_critique,
       NodeTag.revise_resume, NodeTag.draft_resume] ∧
    (runNodes ⟨fun _ => "T", fun _ => ⟨["r"], ["p"]⟩⟩ 6
        Node.extract_qualifications
        ⟨some "J", some "ok", some "R", none, none, [], none⟩).2.1.editor_feedback.length
      = 2 ∧
    (runNodes ⟨fun _ => "T", fun _ => ⟨["r"], ["p"]⟩⟩ 8
        Node.extract_qualifications
        ⟨some "J", some "ok", some "R", none, none, [], none⟩).1 =
      [NodeTag.extract_qualifications, NodeTag.human_feedback,
       NodeTag.draft_resume, NodeTag.editor_api, NodeTag.editor_critique,
       NodeTag.revise_resume, NodeTag.draft_resume, NodeTag.editor_api,
       NodeTag.editor_critique, NodeTag.revise_resume] ∧
    (runNodes ⟨fun _ => "T", fun _ => ⟨["r"], ["p"]⟩⟩ 8
        Node.extract_qualifications
        ⟨some "J", some "ok", some "R", none, none, [], none⟩).2.1.editor_feedback.length
      = 4 :=
  ⟨rfl, rfl, rfl, rfl⟩

/-- C2: modelled from the spec, because the execution engine (langgraph) is
external to the repository: invoking the compiled graph suspends
immediately before the `human_feedback` node — the interruption point the
source declares at line 220 — returning a paused handle that carries the
persisted checkpoint, namely the state with the extraction update merged;
resuming a paused handle with a patch merges the patch into the
checkpointed state (the patched field is visible) and continues execution
exactly from the interrupted node. -/
theorem c2_interrupt_checkpoint_resume (o : Oracle) (init cp : ResumeState)
    (jp : String) (patch : ResumeUpdate) (fuel : Nat)
    (hjp : init.job_post = some jp) :
    invoke o (fuel + 1 + 1) init =
      RunResult.paused
        (applyUpdate
          { qualifications :=
              some (o.quals (extractRequest jp (init.human_feedback.getD ""))) }
          init)
        Node.human_feedback ∧
    Node.human_feedback ∈ interruptBefore ∧
    resume o fuel (RunResult.paused cp Node.human_feedback) patch =
      runI o fuel false Node.human_feedback (applyUpdate patch cp) ∧
    (∀ v : String, patch.human_feedback = some v →
        (applyUpdate patch cp).human_feedback = some v) := by
  refine ⟨?_, by decide, rfl, ?_⟩
  · unfold invoke
    rw [runI_succ o (fuel + 1) true Node.extract_qualifications init (by decide)]
    simp [interruptBefore, execNode, extract_qualifications, hjp]
    rw [runI_succ o fuel true Node.human_feedback _ (by decide)]
    simp [interruptBefore]
  · intro v hv
    simp [applyUpdate, mergeScalar, hv]

/-- Witness for C2: a concrete invocation pauses before the feedback node
with the post-extraction checkpoint. -/
theorem c2_interrupt_checkpoint_resume_witness :
    invoke ⟨fun _ => "T", fun _ => ⟨["r"], ["p"]⟩⟩ 12
        ⟨some "J", none, some "R", none, none, [], none⟩ =
      RunResult.paused
        (applyUpdate { qualifications := some ⟨["r"], ["p"]⟩ }
          ⟨some "J", none, some "R", none, none, [], none⟩)
        Node.human_feedback :=
  (c2_interrupt_checkpoint_resume ⟨fun _ => "T", fun _ => ⟨["r"], ["p"]⟩⟩
    ⟨some "J", none, some "R", none, none, [], none⟩
    ⟨some "J", none, some "R", none, none, [], none⟩ "J"
    ⟨none, none, none, none, none, none, none⟩ 10 rfl).1
